import Mathlib

/-!
Shallow embedding of the JARVIS chat application's core subsystems:
the bounded error logger (`src/utils/errorLogger.js`), the error
taxonomy and error context (`src/types/index.js`,
`src/contexts/ErrorContext.jsx`), the widget lifecycle manager
(`src/hooks/useElevenLabsWidget.js`), the chat message timeline
(`src/components/chat/ChatWindow.jsx`), and the remote-script loading
effects of the two `ElevenLabsWidget` components.

Environment-supplied values (`crypto.randomUUID()`, `new Date()`,
`window.location.href`, `navigator.userAgent`, `Math.random()`) are not
functions of the program state; where a definition needs one it is taken
as an explicit parameter, and record fields holding such values are
omitted when no claim mentions them.
-/

namespace Jarvis

/-! ## ErrorLogger (`src/utils/errorLogger.js`) -/

/-- A log entry as built by `ErrorLogger.createLogEntry`.  The `id`,
`timestamp`, `url` and `userAgent` fields of the source object are
environment-supplied capture metadata and are omitted here. -/
structure LogEntry where
  level : String
  message : String
  details : Option String
  context : Option String
deriving DecidableEq, Repr

/-- Logger state: the `logs` array plus the `isProduction` mode flag set
in the constructor from `process.env.NODE_ENV`. -/
structure LoggerState where
  logs : List LogEntry
  isProduction : Bool
deriving DecidableEq, Repr

/-- The fixed capacity `this.maxLogs = 1000`. -/
def maxLogs : Nat := 1000

/-- Embedding of `ErrorLogger.createLogEntry`: builds the entry,
pushes it onto `logs`, prunes to the most recent `maxLogs` entries
(`this.logs = this.logs.slice(-this.maxLogs)`) when the capacity is
exceeded, and returns the created entry. -/
def createLogEntry (logs : List LogEntry) (level message : String)
    (details context : Option String) : List LogEntry × LogEntry :=
  let entry : LogEntry := ⟨level, message, details, context⟩
  let logs' := logs ++ [entry]
  (if logs'.length > maxLogs then logs'.drop (logs'.length - maxLogs) else logs', entry)

/-- Embedding of `ErrorLogger.error`: appends an ERROR entry and returns
it (console emission is a side effect outside the model). -/
def errorLog (st : LoggerState) (message : String)
    (details context : Option String) : LoggerState × LogEntry :=
  let r := createLogEntry st.logs "ERROR" message details context
  ({ st with logs := r.1 }, r.2)

/-- Embedding of `ErrorLogger.warn`. -/
def warnLog (st : LoggerState) (message : String)
    (details context : Option String) : LoggerState × LogEntry :=
  let r := createLogEntry st.logs "WARN" message details context
  ({ st with logs := r.1 }, r.2)

/-- Embedding of `ErrorLogger.info`: always appends the entry; only the
console emission is gated on production mode. -/
def infoLog (st : LoggerState) (message : String)
    (details context : Option String) : LoggerState × LogEntry :=
  let r := createLogEntry st.logs "INFO" message details context
  ({ st with logs := r.1 }, r.2)

/-- Embedding of `ErrorLogger.debug`: in production mode it returns
`null` without creating an entry; otherwise it behaves like the other
wrappers. -/
def debugLog (st : LoggerState) (message : String)
    (details context : Option String) : LoggerState × Option LogEntry :=
  if st.isProduction then (st, none)
  else
    let r := createLogEntry st.logs "DEBUG" message details context
    ({ st with logs := r.1 }, some r.2)

/-- Embedding of `ErrorLogger.clearLogs`: records the current count,
empties the buffer, then logs an INFO entry announcing the clear, and
returns the count. -/
def clearLogs (st : LoggerState) : LoggerState × Nat :=
  let clearedCount := st.logs.length
  let st1 : LoggerState := { st with logs := [] }
  let st2 := (infoLog st1 ("Cleared " ++ toString clearedCount ++ " log entries")
    none (some "Log Management")).1
  (st2, clearedCount)

/-- The data of one `log()` call (level, message, details, context). -/
structure LogCall where
  level : String
  message : String
  details : Option String
  context : Option String
deriving DecidableEq, Repr

/-- The entry a `LogCall` creates. -/
def LogCall.entry (c : LogCall) : LogEntry :=
  ⟨c.level, c.message, c.details, c.context⟩

/-- Running a sequence of `createLogEntry` calls against a log buffer. -/
def runLog (logs : List LogEntry) (calls : List LogCall) : List LogEntry :=
  calls.foldl (fun st c => (createLogEntry st c.level c.message c.details c.context).1) logs

/-- The suffix of the most recent `n` elements of a list. -/
def lastN (n : Nat) (l : List α) : List α := l.drop (l.length - n)

/-! ## Error taxonomy (`src/types/index.js`, `src/utils/index.js`) -/

/-- The `ERROR_TYPES.MICROPHONE_ACCESS_DENIED` constant. -/
def MICROPHONE_ACCESS_DENIED : String := "MICROPHONE_ACCESS_DENIED"

/-- The `ERROR_TYPES.NETWORK_ERROR` constant. -/
def NETWORK_ERROR : String := "NETWORK_ERROR"

/-- The `ERROR_TYPES.VOICE_PROCESSING_ERROR` constant. -/
def VOICE_PROCESSING_ERROR : String := "VOICE_PROCESSING_ERROR"

/-- The `ERROR_TYPES.WIDGET_INITIALIZATION_ERROR` constant. -/
def WIDGET_INITIALIZATION_ERROR : String := "WIDGET_INITIALIZATION_ERROR"

/-- The `ERROR_TYPES.UNKNOWN_ERROR` constant. -/
def UNKNOWN_ERROR : String := "UNKNOWN_ERROR"

/-- The values of the `ERROR_TYPES` object (`Object.values(ERROR_TYPES)`). -/
def errorTypeValues : List String :=
  [MICROPHONE_ACCESS_DENIED, NETWORK_ERROR, VOICE_PROCESSING_ERROR,
   WIDGET_INITIALIZATION_ERROR, UNKNOWN_ERROR]

/-- An application error as built by `createAppError`.  The `timestamp:
new Date()` field is environment-supplied and omitted; no claim
mentions it. -/
structure AppError where
  type : String
  message : String
  details : Option String
  recoverable : Bool
deriving DecidableEq, Repr

/-- Embedding of `createAppError` from `src/types/index.js`: a pure
constructor. -/
def createAppError (type message : String) (details : Option String)
    (recoverable : Bool) : AppError :=
  ⟨type, message, details, recoverable⟩

/-- Embedding of `createApplicationError` from `src/utils/index.js`:
coerces an unknown kind to `UNKNOWN_ERROR` instead of failing. -/
def createApplicationError (type message : String) (details : Option String)
    (recoverable : Bool) : AppError :=
  if type ∈ errorTypeValues then createAppError type message details recoverable
  else createAppError UNKNOWN_ERROR message details recoverable

/-- JavaScript `String.prototype.includes`: substring containment. -/
def includes (s sub : String) : Bool :=
  decide (List.IsInfix sub.toList s.toList)

/-- Embedding of the classification cascade inside
`ErrorContext.handleError` (`src/contexts/ErrorContext.jsx` lines
107-117): substring matching on the caught error's message, falling
back to `UNKNOWN_ERROR`. -/
def classifyMessage (msg : String) : String :=
  if includes msg "microphone" || includes msg "getUserMedia" then MICROPHONE_ACCESS_DENIED
  else if includes msg "network" || includes msg "fetch" then NETWORK_ERROR
  else if includes msg "voice" || includes msg "speech" then VOICE_PROCESSING_ERROR
  else if includes msg "widget" || includes msg "elevenlabs" then WIDGET_INITIALIZATION_ERROR
  else UNKNOWN_ERROR

/-- Embedding of the `Error`-instance branch of
`ErrorContext.handleError`: classifies the message, builds the
`AppError` via `createError`/`createAppError` with `recoverable` set to
`errorType !== ERROR_TYPES.MICROPHONE_ACCESS_DENIED`, and hands it to
`addError`.  The produced `AppError` is returned. -/
def handleErrorApp (msg context : String) : AppError :=
  let errorType := classifyMessage msg
  createAppError errorType msg
    (if context = "" then none else some ("Context: " ++ context))
    (errorType != MICROPHONE_ACCESS_DENIED)

/-! ## Widget lifecycle manager (`src/hooks/useElevenLabsWidget.js`) -/

/-- The `useElevenLabsWidget` hook's state: the six `useState` cells.
The `widgetRef` ref holds a DOM handle and is outside the model. -/
structure WState where
  isConnected : Bool
  isInCall : Bool
  isListening : Bool
  isSpeaking : Bool
  error : Option AppError
  widgetStatus : String
deriving DecidableEq, Repr

/-- The initial hook state: all booleans false, no error, status
`idle`. -/
def initialWidgetState : WState :=
  ⟨false, false, false, false, none, "idle"⟩

/-- Embedding of `handleStatusChange`: records the status string, then
switches on it; an unrecognized status only updates `widgetStatus`. -/
def handleStatusChange (status : String) (s : WState) : WState :=
  let s1 : WState := { s with widgetStatus := status }
  if status = "connected" then
    { s1 with isConnected := true, error := none }
  else if status = "disconnected" ∨ status = "idle" then
    { s1 with isConnected := false, isInCall := false,
              isListening := false, isSpeaking := false }
  else if status = "in-call" then
    { s1 with isInCall := true }
  else if status = "listening" then
    { s1 with isListening := true, isSpeaking := false }
  else if status = "speaking" then
    { s1 with isListening := false, isSpeaking := true }
  else if status = "error" then
    { s1 with isConnected := false, isInCall := false,
              isListening := false, isSpeaking := false }
  else s1

/-- Embedding of `handleConversationStart`. -/
def handleConversationStart (s : WState) : WState :=
  { s with isInCall := true, error := none }

/-- Embedding of `handleConversationEnd`. -/
def handleConversationEnd (s : WState) : WState :=
  { s with isInCall := false, isListening := false, isSpeaking := false }

/-- Embedding of `handleWidgetError`: stores a
`WIDGET_INITIALIZATION_ERROR` app error built from the widget's error
message (the forwarding to the error context is outside this state). -/
def handleWidgetError (errorMessage : String) (s : WState) : WState :=
  { s with error := some (createApplicationError WIDGET_INITIALIZATION_ERROR
      errorMessage (some "ElevenLabs widget error") true) }

/-- The `AppError` built in `connect`'s catch branch when
`document.querySelector('elevenlabs-convai')` finds nothing. -/
def connectErr : AppError :=
  createApplicationError WIDGET_INITIALIZATION_ERROR
    "Failed to connect to voice service" (some "ElevenLabs widget not found") true

/-- Embedding of `connect`.  `widgetPresent` abstracts whether
`document.querySelector('elevenlabs-convai')` finds the element.  The
function has no early return on `isConnected`: it always re-queries the
document; on success it sets `isConnected` and clears the error, on
failure it stores `connectErr` (and reports via `handleError`, outside
this state). -/
def connect (widgetPresent : Bool) (s : WState) : WState :=
  if widgetPresent then
    { s with isConnected := true, error := none }
  else
    { s with error := some connectErr }

/-- Embedding of `disconnect`: resets the four booleans and clears the
error (its `try` body cannot throw). -/
def disconnect (s : WState) : WState :=
  { s with isConnected := false, isInCall := false,
           isListening := false, isSpeaking := false, error := none }

/-- Embedding of `clearError`. -/
def clearError (s : WState) : WState :=
  { s with error := none }

/-- The `AppError` stored by `startVoiceInput` when the manager is not
connected. -/
def notConnectedErr : AppError :=
  createApplicationError WIDGET_INITIALIZATION_ERROR
    "Voice service not connected" (some "Cannot start voice input without connection") true

/-- Embedding of `startVoiceInput`: returns the boolean success flag
together with the new state.  When disconnected it stores
`notConnectedErr` and returns `false`; when connected it sets
`isListening` and clears `isSpeaking` (its `try` body cannot throw). -/
def startVoiceInput (s : WState) : Bool × WState :=
  if !s.isConnected then
    (false, { s with error := some notConnectedErr })
  else
    (true, { s with isListening := true, isSpeaking := false })

/-- Embedding of `stopVoiceInput` (its `try` body cannot throw). -/
def stopVoiceInput (s : WState) : Bool × WState :=
  (true, { s with isListening := false })

/-- Embedding of `toggleVoiceInput`. -/
def toggleVoiceInput (s : WState) : Bool × WState :=
  if s.isListening then stopVoiceInput s else startVoiceInput s

/-- One input to the widget lifecycle manager: a widget-status event or
a local command (`connect` carries whether the widget element is in the
document at call time). -/
inductive WOp where
  | statusEvent (status : String)
  | connectCmd (widgetPresent : Bool)
  | disconnectCmd
  | clearErrorCmd
  | startVoice
  | stopVoice
  | toggleVoice
  | convStart
  | convEnd
  | widgetErr (msg : String)
deriving DecidableEq, Repr

/-- Applying one manager input to the hook state. -/
def applyWOp (op : WOp) (s : WState) : WState :=
  match op with
  | WOp.statusEvent status => handleStatusChange status s
  | WOp.connectCmd p => connect p s
  | WOp.disconnectCmd => disconnect s
  | WOp.clearErrorCmd => clearError s
  | WOp.startVoice => (startVoiceInput s).2
  | WOp.stopVoice => (stopVoiceInput s).2
  | WOp.toggleVoice => (toggleVoiceInput s).2
  | WOp.convStart => handleConversationStart s
  | WOp.convEnd => handleConversationEnd s
  | WOp.widgetErr msg => handleWidgetError msg s

/-- The state reached from the initial state by a sequence of manager
inputs. -/
def runWOps (ops : List WOp) : WState :=
  ops.foldl (fun s op => applyWOp op s) initialWidgetState

/-! ## Chat timeline (`src/types/index.js`, `src/utils/index.js`,
`src/components/chat/ChatWindow.jsx`) -/

/-- JavaScript `String.prototype.trim`: strips leading and trailing
whitespace (modelled with `Char.isWhitespace` as the whitespace
class). -/
def jsTrim (s : String) : String :=
  ⟨(((s.toList.dropWhile Char.isWhitespace).reverse.dropWhile
      Char.isWhitespace).reverse)⟩

/-- A conversation message as built by `createMessage`.  The `id:
crypto.randomUUID()` and `timestamp: new Date()` fields are
environment-supplied and omitted; no claim mentions them. -/
structure Message where
  content : String
  sender : String
  type : String
  status : String
deriving DecidableEq, Repr

/-- Embedding of `createMessage` from `src/types/index.js`: the
delivery status of every created message is the literal `'sent'`. -/
def createMessage (content sender : String) (type : String) : Message :=
  ⟨content, sender, type, "sent"⟩

/-- Embedding of `createChatMessage` from `src/utils/index.js`: the
three validations throw (`Except.error`) on bad input, otherwise the
message is built by `createMessage` on the trimmed content. -/
def createChatMessage (content sender : String) (type : String) :
    Except String Message :=
  if content = "" then
    Except.error "Message content is required and must be a string"
  else if ¬(sender = "user" ∨ sender = "assistant") then
    Except.error "Sender must be either \"user\" or \"assistant\""
  else if ¬(type = "text" ∨ type = "voice") then
    Except.error "Type must be either \"text\" or \"voice\""
  else
    Except.ok (createMessage (jsTrim content) sender type)

/-- The chat window's state cell as built by `createChatState`
(`src/types/index.js`); only the fields the claims mention are kept
live, the widget-mirroring booleans are carried unchanged. -/
structure ChatState where
  messages : List Message
  isConnected : Bool
  isListening : Bool
  isSpeaking : Bool
  error : Option String
deriving DecidableEq, Repr

/-- Embedding of `createChatState`. -/
def createChatState : ChatState :=
  ⟨[], false, false, false, none⟩

/-- The five canned assistant responses in `handleSendMessage`. -/
def responses : List String :=
  ["I understand your request. How can I assist you further?",
   "Processing your input. What would you like me to help you with next?",
   "I'm here to help. Please let me know if you need anything else.",
   "Your message has been received. I'm ready for your next command.",
   "Thank you for your input. How may I be of service?"]

/-- The response picked by `responses[Math.floor(Math.random() *
responses.length)]`; the random draw is abstracted as a natural number
reduced modulo the list length. -/
def pickResponse (i : Nat) : String :=
  responses.getD (i % responses.length) ""

/-- Embedding of the synchronous part of `handleSendMessage`
(`ChatWindow.jsx`): whitespace-only content returns without any state
change; otherwise the user message built by
`createChatMessage(content.trim(), 'user', 'text')` is appended (the
catch branch records the failure string in the chat error field — it is
unreachable here because the trimmed content is nonempty). -/
def handleSendMessage (st : ChatState) (content : String) : ChatState :=
  if jsTrim content = "" then st
  else
    match createChatMessage (jsTrim content) "user" "text" with
    | Except.ok m => { st with messages := st.messages ++ [m] }
    | Except.error _ =>
        { st with error := some "Failed to send message. Please try again." }

/-- Embedding of the `setTimeout` continuation inside
`handleSendMessage`: appends the assistant reply message
`createChatMessage(randomResponse, 'assistant', 'text')`. -/
def assistantTimerFires (st : ChatState) (i : Nat) : ChatState :=
  match createChatMessage (pickResponse i) "assistant" "text" with
  | Except.ok m => { st with messages := st.messages ++ [m] }
  | Except.error _ =>
      { st with error := some "Failed to send message. Please try again." }

/-- The complete send-text scenario: the synchronous part of
`handleSendMessage` followed, when a message was actually sent, by the
assistant-reply timer firing (the timer is only scheduled on the
non-whitespace path). -/
def sendTextScenario (st : ChatState) (content : String) (i : Nat) : ChatState :=
  if jsTrim content = "" then handleSendMessage st content
  else assistantTimerFires (handleSendMessage st content) i

/-! ## Remote script loading (`ElevenLabsWidget` components)

The document is abstracted to the number of `<script>` tags matching
`script[src*="convai-widget-embed"]` it contains.  Each operation
returns the new document together with the number of script-tag
injections (`document.head.appendChild(script)` calls) it performed. -/

/-- Embedding of `loadScript` from the guarded `ElevenLabsWidget`
component: if `document.querySelector('script[src*="convai-widget-embed"]')`
finds a matching tag it returns without injecting; otherwise it creates
and appends one script tag. -/
def loadScript (scripts : Nat) : Nat × Nat :=
  if scripts > 0 then (scripts, 0) else (scripts + 1, 1)

/-- Embedding of the unguarded `ElevenLabsWidget` component's mount
effect: it unconditionally creates a script element and appends it to
`document.head` — there is no duplicate check. -/
def mountUnguardedWidget (scripts : Nat) : Nat × Nat :=
  (scripts + 1, 1)

/-- One script-relevant operation: mounting the guarded widget (whose
effect calls `loadScript`) or calling the manager's `connect()` (which
only queries `document.querySelector('elevenlabs-convai')` and never
touches script tags). -/
inductive ScriptOp where
  | mountGuarded
  | connectCall
deriving DecidableEq, Repr

/-- Folding one operation over (document script count, total injections
performed so far). -/
def scriptStep : Nat × Nat → ScriptOp → Nat × Nat
  | (d, inj), ScriptOp.mountGuarded => ((loadScript d).1, inj + (loadScript d).2)
  | (d, inj), ScriptOp.connectCall => (d, inj)

/-- Running a sequence of widget mounts and `connect()` calls from a
document with no matching script tag, counting total injections. -/
def runScriptOps (ops : List ScriptOp) : Nat × Nat :=
  ops.foldl scriptStep (0, 0)

/-! ## Helper lemmas about `lastN` and the log buffer -/

theorem lastN_length_le (n : Nat) (l : List α) : (lastN n l).length ≤ n := by
  simp only [lastN, List.length_drop]
  omega

theorem lastN_of_length_le (n : Nat) (l : List α) (h : l.length ≤ n) :
    lastN n l = l := by
  simp only [lastN, Nat.sub_eq_zero_of_le h, List.drop_zero]

/-- Dropping a prefix to keep the last `n` elements is insensitive to
first restricting the left part of an append to its own last `n`
elements. -/
theorem lastN_append_left (n : Nat) (l es : List α) :
    lastN n (lastN n l ++ es) = lastN n (l ++ es) := by
  simp only [lastN, List.drop_append_eq_append_drop, List.length_append, List.length_drop]
  rw [List.drop_drop]
  congr 1
  · congr 1
    omega
  · congr 1
    omega

/-- One `createLogEntry` call turns the buffer into the last `maxLogs`
elements of the buffer with the new entry appended. -/
theorem createLogEntry_buffer (logs : List LogEntry) (c : LogCall) :
    (createLogEntry logs c.level c.message c.details c.context).1
      = lastN maxLogs (logs ++ [c.entry]) := by
  simp only [createLogEntry, LogCall.entry, lastN]
  split
  · rfl
  · rename_i h
    rw [Nat.sub_eq_zero_of_le (by omega), List.drop_zero]

/-- The buffer after a run of `createLogEntry` calls is the last
`maxLogs` created entries (relative to the starting buffer), provided
the starting buffer is within capacity. -/
theorem runLog_eq_lastN (calls : List LogCall) (acc : List LogEntry)
    (h : acc.length ≤ maxLogs) :
    runLog acc calls = lastN maxLogs (acc ++ calls.map LogCall.entry) := by
  induction calls generalizing acc with
  | nil => simpa [runLog] using (lastN_of_length_le maxLogs acc h).symm
  | cons c cs ih =>
      have hstep : (createLogEntry acc c.level c.message c.details c.context).1
          = lastN maxLogs (acc ++ [c.entry]) := createLogEntry_buffer acc c
      calc runLog acc (c :: cs)
          = runLog (lastN maxLogs (acc ++ [c.entry])) cs := by
            simp only [runLog, List.foldl_cons, hstep]
        _ = lastN maxLogs (lastN maxLogs (acc ++ [c.entry]) ++ cs.map LogCall.entry) :=
            ih _ (lastN_length_le _ _)
        _ = lastN maxLogs ((acc ++ [c.entry]) ++ cs.map LogCall.entry) :=
            lastN_append_left _ _ _
        _ = lastN maxLogs (acc ++ (c :: cs).map LogCall.entry) := by
            simp

/-! ## Claim theorems -/

/-- C4: for every sequence of `log()` calls (via `createLogEntry`)
longer than the fixed capacity of 1000, the logger's buffer afterwards
is exactly the most recent 1000 created entries in insertion order
(oldest evicted first, so the buffer length is exactly 1000), and every
`createLogEntry` call returns the entry it created. -/
theorem C4_ring_buffer (calls : List LogCall) (h : calls.length > maxLogs) :
    runLog [] calls = lastN maxLogs (calls.map LogCall.entry)
    ∧ (runLog [] calls).length = maxLogs
    ∧ ∀ (logs : List LogEntry) (c : LogCall),
        (createLogEntry logs c.level c.message c.details c.context).2 = c.entry := by
  have hrun : runLog [] calls = lastN maxLogs (calls.map LogCall.entry) := by
    simpa using runLog_eq_lastN calls [] (by simp [maxLogs])
  refine ⟨hrun, ?_, fun logs c => rfl⟩
  rw [hrun]
  simp only [lastN, List.length_drop, List.length_map]
  omega

/-- Witness for C4 at a concrete overlong call sequence. -/
theorem C4_ring_buffer_witness :
    (List.replicate 1001 (LogCall.mk "INFO" "boot" none none)).length > maxLogs
    ∧ (runLog [] (List.replicate 1001 (LogCall.mk "INFO" "boot" none none))).length
        = maxLogs :=
  ⟨by simp only [List.length_replicate, maxLogs]; omega,
   (C4_ring_buffer (List.replicate 1001 (LogCall.mk "INFO" "boot" none none))
     (by simp only [List.length_replicate, maxLogs]; omega)).2.1⟩

/-- C10: `clearLogs()` returns the number of entries present before the
clear, but immediately appends one INFO entry recording the clear, so
afterwards the buffer holds exactly that one entry — it is never empty
after a clear-all. -/
theorem C10_clear_logs_not_empty (st : LoggerState) :
    (clearLogs st).2 = st.logs.length
    ∧ (clearLogs st).1.logs.length = 1
    ∧ (clearLogs st).1.logs.map LogEntry.level = ["INFO"] := by
  refine ⟨rfl, ?_, ?_⟩ <;>
    simp [clearLogs, infoLog, createLogEntry, maxLogs]

/-- Listening and speaking are not both set. -/
def mutexLS (s : WState) : Prop :=
  s.isListening = false ∨ s.isSpeaking = false

/-- Every manager input preserves the listening/speaking exclusion. -/
theorem applyWOp_mutexLS (op : WOp) (s : WState) (h : mutexLS s) :
    mutexLS (applyWOp op s) := by
  unfold mutexLS at *
  cases op <;>
    simp only [applyWOp, handleStatusChange, connect, disconnect, clearError,
      startVoiceInput, stopVoiceInput, toggleVoiceInput, handleConversationStart,
      handleConversationEnd, handleWidgetError] <;>
    (try split_ifs) <;>
    tauto

/-- The exclusion holds after any input sequence from any state
satisfying it. -/
theorem foldWOps_mutexLS (ops : List WOp) (s : WState) (h : mutexLS s) :
    mutexLS (ops.foldl (fun s op => applyWOp op s) s) := by
  induction ops generalizing s with
  | nil => exact h
  | cons op ops ih => exact ih _ (applyWOp_mutexLS op s h)

/-- C6: in every state reachable from the initial manager state by any
sequence of widget-status events and local commands, `isListening` and
`isSpeaking` are never both true. -/
theorem C6_listening_speaking_exclusive (ops : List WOp) :
    ¬((runWOps ops).isListening = true ∧ (runWOps ops).isSpeaking = true) := by
  have h := foldWOps_mutexLS ops initialWidgetState (Or.inl rfl)
  unfold runWOps
  rcases h with h | h <;> simp [h]

/-- C9: on a connected manager, two successive `toggleVoiceInput` calls
return `isListening` to its original value. -/
theorem C9_toggle_pair_restores (s : WState) (h : s.isConnected = true) :
    (toggleVoiceInput (toggleVoiceInput s).2).2.isListening = s.isListening := by
  by_cases hl : s.isListening = true <;>
    simp [toggleVoiceInput, startVoiceInput, stopVoiceInput, h, hl]

/-- Witness for C9 at a concrete connected state. -/
theorem C9_toggle_pair_restores_witness :
    ({ initialWidgetState with isConnected := true } : WState).isConnected = true
    ∧ (toggleVoiceInput
        (toggleVoiceInput { initialWidgetState with isConnected := true }).2).2.isListening
      = ({ initialWidgetState with isConnected := true } : WState).isListening :=
  ⟨rfl, C9_toggle_pair_restores { initialWidgetState with isConnected := true } rfl⟩

/-- C7 counterexample: after the widget-status event `listening` on the
initial state (reachable, and disconnected), `startVoiceInput` returns
`false` but leaves `isListening` at `true`, not `false` as the claim's
parenthetical asserts. -/
theorem C7_counterexample :
    (handleStatusChange "listening" initialWidgetState).isConnected = false
    ∧ (handleStatusChange "listening" initialWidgetState).isListening = true
    ∧ (startVoiceInput (handleStatusChange "listening" initialWidgetState)).1 = false
    ∧ (startVoiceInput (handleStatusChange "listening" initialWidgetState)).2.isListening
        = true := by
  decide

/-- C7 amended: on every disconnected manager state, `startVoiceInput`
returns the failure value `false` without throwing and leaves
`isListening` unchanged. -/
theorem C7_start_disconnected (s : WState) (h : s.isConnected = false) :
    (startVoiceInput s).1 = false
    ∧ (startVoiceInput s).2.isListening = s.isListening := by
  simp [startVoiceInput, h]

/-- Witness for C7 at the initial (disconnected) state. -/
theorem C7_start_disconnected_witness :
    initialWidgetState.isConnected = false
    ∧ (startVoiceInput initialWidgetState).1 = false
    ∧ (startVoiceInput initialWidgetState).2.isListening
        = initialWidgetState.isListening :=
  ⟨rfl, (C7_start_disconnected initialWidgetState rfl).1,
    (C7_start_disconnected initialWidgetState rfl).2⟩

/-- C2 counterexample: on an already-connected state carrying an
error, `connect()` with the widget element present is not a no-op — it
clears the error (there is no early return on `isConnected`). -/
theorem C2_counterexample :
    ({ initialWidgetState with isConnected := true, error := some connectErr } : WState).isConnected
        = true
    ∧ connect true { initialWidgetState with isConnected := true, error := some connectErr }
        ≠ { initialWidgetState with isConnected := true, error := some connectErr } := by
  decide

/-- C2 amended: `connect()` is idempotent in the sense that an
immediate second call against the same document is a no-op, but it has
no already-connected guard: it always re-locates the widget element;
when the element is absent it stores a `WIDGET_INITIALIZATION_ERROR`
(`connectErr`) leaving `isConnected` unchanged, and when present it
sets `isConnected := true` and clears any existing error. -/
theorem C2_connect_behaviour (p : Bool) (s : WState) :
    connect p (connect p s) = connect p s
    ∧ (p = false → (connect p s).error = some connectErr
        ∧ (connect p s).isConnected = s.isConnected)
    ∧ (p = true → (connect p s).isConnected = true ∧ (connect p s).error = none) := by
  cases p <;> simp [connect]

/-- Witness for C2 at a concrete state and document. -/
theorem C2_connect_behaviour_witness :
    (connect true initialWidgetState).isConnected = true
    ∧ (connect true initialWidgetState).error = none :=
  (C2_connect_behaviour true initialWidgetState).2.2 rfl

/-- C5 counterexample: `disconnect` resets a non-null error to null on
its own (`setError(null)` is part of its body), contradicting the claim
that only `clearError`/retry clears the error. -/
theorem C5_counterexample :
    ({ initialWidgetState with error := some connectErr } : WState).error ≠ none
    ∧ (disconnect { initialWidgetState with error := some connectErr }).error = none := by
  decide

/-- C5 amended: besides `clearError`, the error is also cleared by
`disconnect`, by a successful `connect`, by the `connected` status
event and by conversation start; every other status event, conversation
end and `stopVoiceInput` leave a non-null error unchanged, and
`startVoiceInput` never resets it to null. -/
theorem C5_error_clearing (s : WState) (e : AppError) (h : s.error = some e) :
    (∀ status : String, status ≠ "connected" →
        (handleStatusChange status s).error = some e)
    ∧ (handleStatusChange "connected" s).error = none
    ∧ (disconnect s).error = none
    ∧ (connect true s).error = none
    ∧ (clearError s).error = none
    ∧ (handleConversationStart s).error = none
    ∧ (handleConversationEnd s).error = some e
    ∧ (stopVoiceInput s).2.error = some e
    ∧ (startVoiceInput s).2.error ≠ none := by
  refine ⟨?_, ?_, rfl, rfl, rfl, rfl, h, h, ?_⟩
  · intro status hst
    unfold handleStatusChange
    split_ifs <;> simp_all
  · unfold handleStatusChange
    split_ifs <;> simp_all
  · unfold startVoiceInput
    split_ifs <;> simp [h]

/-- Witness for C5 at a concrete errored state and the `idle` status
event. -/
theorem C5_error_clearing_witness :
    ({ initialWidgetState with error := some connectErr } : WState).error = some connectErr
    ∧ (handleStatusChange "idle"
        { initialWidgetState with error := some connectErr }).error = some connectErr
    ∧ (disconnect { initialWidgetState with error := some connectErr }).error = none :=
  ⟨rfl,
   (C5_error_clearing _ connectErr rfl).1 "idle" (by decide),
   (C5_error_clearing _ connectErr rfl).2.2.1⟩

/-- C8: for every message carried by an `Error` instance given to
`handleError`, the produced `AppError` is non-recoverable exactly when
the classified kind is `MICROPHONE_ACCESS_DENIED`; its kind is the
classification of the message alone, so identical messages always
yield identical kinds regardless of the call context. -/
theorem C8_recoverable_iff_microphone (msg context : String) :
    ((handleErrorApp msg context).recoverable = false
        ↔ classifyMessage msg = MICROPHONE_ACCESS_DENIED)
    ∧ (handleErrorApp msg context).type = classifyMessage msg
    ∧ ∀ context2 : String,
        (handleErrorApp msg context2).type = (handleErrorApp msg context).type := by
  refine ⟨?_, rfl, fun context2 => rfl⟩
  simp [handleErrorApp, createAppError, bne_eq_false_iff_eq]

/-- C1 counterexample: sending `"Hello"` appends the user message with
delivery status `sent` immediately — no message ever carries the
status `sending`, so there is no `sending → sent` transition. -/
theorem C1_counterexample :
    (handleSendMessage createChatState "Hello").messages.map Message.status = ["sent"]
    ∧ (sendTextScenario createChatState "Hello" 0).messages.map Message.status
        = ["sent", "sent"]
    ∧ "sent" ≠ "sending" := by
  decide

/-- No canned assistant response is the empty string. -/
theorem pickResponse_ne_empty (i : Nat) : pickResponse i ≠ "" := by
  have hlen : responses.length = 5 := rfl
  have h5 : i % responses.length < 5 := by
    rw [hlen]
    exact Nat.mod_lt _ (by norm_num)
  unfold pickResponse
  revert h5
  generalize i % responses.length = j
  intro h5
  interval_cases j <;> decide

/-- C1 amended: for whitespace-only content the send is a no-op on the
whole chat state; for any other content exactly one `user`/`text`
message with status `sent` (from creation — there is no `sending`
phase) is appended, followed by exactly one `assistant`/`text` reply
with status `sent`, so the timeline grows by exactly 2. -/
theorem C1_send_text (st : ChatState) (content : String) (i : Nat) :
    (jsTrim content = "" → sendTextScenario st content i = st)
    ∧ (jsTrim content ≠ "" →
        ∃ u a : Message,
          (sendTextScenario st content i).messages = st.messages ++ [u, a]
          ∧ u.sender = "user" ∧ u.type = "text" ∧ u.status = "sent"
          ∧ a.sender = "assistant" ∧ a.type = "text" ∧ a.status = "sent"
          ∧ (sendTextScenario st content i).messages.length
              = st.messages.length + 2) := by
  constructor
  · intro h
    simp [sendTextScenario, handleSendMessage, h]
  · intro h
    have hok : createChatMessage (jsTrim content) "user" "text"
        = Except.ok (createMessage (jsTrim (jsTrim content)) "user" "text") := by
      simp [createChatMessage, h]
    have hok2 : createChatMessage (pickResponse i) "assistant" "text"
        = Except.ok (createMessage (jsTrim (pickResponse i)) "assistant" "text") := by
      simp [createChatMessage, pickResponse_ne_empty i]
    refine ⟨createMessage (jsTrim (jsTrim content)) "user" "text",
            createMessage (jsTrim (pickResponse i)) "assistant" "text", ?_⟩
    simp [sendTextScenario, handleSendMessage, assistantTimerFires, h, hok, hok2,
      createMessage]

/-- Witness for C1 at the empty chat state and the content `"Hello"`. -/
theorem C1_send_text_witness :
    jsTrim "Hello" ≠ ""
    ∧ ∃ u a : Message,
        (sendTextScenario createChatState "Hello" 0).messages
          = createChatState.messages ++ [u, a]
        ∧ u.sender = "user" ∧ u.type = "text" ∧ u.status = "sent"
        ∧ a.sender = "assistant" ∧ a.type = "text" ∧ a.status = "sent"
        ∧ (sendTextScenario createChatState "Hello" 0).messages.length
            = createChatState.messages.length + 2 :=
  ⟨by decide, (C1_send_text createChatState "Hello" 0).2 (by decide)⟩

/-- C3 counterexample: the unguarded `ElevenLabsWidget` component's
mount effect injects a script tag on every mount, so mounting it twice
starting from a script-free document performs two injections and
leaves two matching script tags. -/
theorem C3_counterexample :
    (mountUnguardedWidget 0).2 = 1
    ∧ (mountUnguardedWidget (mountUnguardedWidget 0).1).2 = 1
    ∧ (mountUnguardedWidget (mountUnguardedWidget 0).1).1 = 2 := by
  decide

/-- One step of the guarded mount / connect fold preserves the
invariant that the injection total equals the script count, which never
exceeds one. -/
theorem scriptStep_inv (p : Nat × Nat) (op : ScriptOp)
    (h1 : p.1 ≤ 1) (h2 : p.2 = p.1) :
    (scriptStep p op).1 ≤ 1 ∧ (scriptStep p op).2 = (scriptStep p op).1 := by
  obtain ⟨d, inj⟩ := p
  cases op <;> simp only [scriptStep, loadScript] <;> (try split_ifs) <;>
    simp_all

/-- The invariant holds after any guarded mount / connect sequence. -/
theorem foldScript_inv (ops : List ScriptOp) (p : Nat × Nat)
    (h1 : p.1 ≤ 1) (h2 : p.2 = p.1) :
    (ops.foldl scriptStep p).1 ≤ 1
    ∧ (ops.foldl scriptStep p).2 = (ops.foldl scriptStep p).1 := by
  induction ops generalizing p with
  | nil => exact ⟨h1, h2⟩
  | cons op ops ih =>
      have h := scriptStep_inv p op h1 h2
      simpa [List.foldl_cons] using ih _ h.1 h.2

/-- C3 amended: for every sequence of guarded-widget mounts (whose
effect runs `loadScript` with its duplicate-script check) and
`connect()` calls starting from a script-free document, at most one
script tag is ever injected and the document never holds more than one
matching script tag; the unguarded widget component has no such guard
and injects on every mount (`C3_counterexample`). -/
theorem C3_guarded_single_injection (ops : List ScriptOp) :
    (runScriptOps ops).1 ≤ 1 ∧ (runScriptOps ops).2 ≤ 1 := by
  have h := foldScript_inv ops (0, 0) (by omega) rfl
  refine ⟨h.1, ?_⟩
  rw [runScriptOps, h.2]
  exact h.1

end Jarvis
